import Mathlib

/-!
Verification of the skip-selection view (`src/App.tsx`).

The embedding models JavaScript numbers as rationals (`ℚ`) for prices and
VAT percentages, and as integers (`ℤ`) for identifiers, sizes and day
counts.  `Math.round` is modelled by its ECMAScript definition
`⌊x + 1/2⌋`.  The fetch lifecycle of the `useEffect` hook is modelled as a
pure transition on the component's state quadruple
(`skips`, `selectedSkip`, `loading`, `error`), driven by the possible
outcomes of the awaited network call.
-/

/-- The `Skip` interface of `App.tsx` (lines 4–19). -/
structure Skip where
  id : ℤ
  size : ℤ
  hire_period_days : ℤ
  transport_cost : Option ℚ
  per_tonne_cost : Option ℚ
  price_before_vat : ℚ
  vat : ℚ
  postcode : String
  area : String
  forbidden : Bool
  created_at : String
  updated_at : String
  allowed_on_road : Bool
  allows_heavy_waste : Bool
  deriving DecidableEq, Repr

/-- `calculateFinalPrice` (App.tsx lines 87–89):
`skip.price_before_vat + (skip.price_before_vat * skip.vat / 100)`. -/
def calculateFinalPrice (skip : Skip) : ℚ :=
  skip.price_before_vat + skip.price_before_vat * skip.vat / 100

/-- ECMAScript `Math.round`: the integer closest to `q`, halves rounding
toward positive infinity, i.e. `⌊q + 1/2⌋`. -/
def mathRound (q : ℚ) : ℤ :=
  ⌊q + 1 / 2⌋

/-- The price the view displays for a card (App.tsx line 162 and line 366):
`Math.round(calculateFinalPrice(skip))`. -/
def displayedFinalPrice (skip : Skip) : ℤ :=
  mathRound (calculateFinalPrice skip)

/-- A concrete skip used to instantiate universally quantified theorems. -/
def sampleSkip : Skip :=
  { id := 1
  , size := 4
  , hire_period_days := 14
  , transport_cost := none
  , per_tonne_cost := none
  , price_before_vat := 200
  , vat := 20
  , postcode := "NR32"
  , area := "Lowestoft"
  , forbidden := false
  , created_at := "2021-04-06"
  , updated_at := "2024-04-02"
  , allowed_on_road := true
  , allows_heavy_waste := true }

/-- `sampleSkip` with the fields irrelevant to the price changed. -/
def sampleSkipVariant : Skip :=
  { sampleSkip with
      id := 2
    , size := 6
    , hire_period_days := 7
    , forbidden := true
    , allowed_on_road := false
    , allows_heavy_waste := false }

/-- A skip whose VAT-inclusive price lands exactly on a half. -/
def halfSkip : Skip :=
  { sampleSkip with id := 3, price_before_vat := 1 / 2, vat := 0 }

/-- C1: the displayed final price is `round(P + P*V/100)` and is
non-negative whenever `P ≥ 0` and `V ≥ 0`. -/
theorem finalPrice_round_nonneg (skip : Skip)
    (hP : 0 ≤ skip.price_before_vat) (hV : 0 ≤ skip.vat) :
    displayedFinalPrice skip
      = mathRound (skip.price_before_vat
          + skip.price_before_vat * skip.vat / 100)
    ∧ 0 ≤ displayedFinalPrice skip := by
  constructor
  · rfl
  · have hq : (0 : ℚ) ≤ calculateFinalPrice skip := by
      unfold calculateFinalPrice
      have h1 : (0 : ℚ) ≤ skip.price_before_vat * skip.vat / 100 := by
        positivity
      linarith
    unfold displayedFinalPrice mathRound
    have : (0 : ℚ) ≤ calculateFinalPrice skip + 1 / 2 := by linarith
    exact Int.le_floor.mpr (by exact_mod_cast this)

/-- Witness for C1 at `sampleSkip`: price 200, VAT 20%, final price 240. -/
theorem finalPrice_round_nonneg_witness :
    displayedFinalPrice sampleSkip
      = mathRound (sampleSkip.price_before_vat
          + sampleSkip.price_before_vat * sampleSkip.vat / 100)
    ∧ 0 ≤ displayedFinalPrice sampleSkip :=
  finalPrice_round_nonneg sampleSkip (by norm_num [sampleSkip])
    (by norm_num [sampleSkip])

/-- C9: when the VAT-inclusive amount is exactly `x + 1/2` for a natural
`x`, the displayed price rounds half up, to `x + 1`. -/
theorem finalPrice_half_rounds_up (skip : Skip) (x : ℕ)
    (h : calculateFinalPrice skip = (x : ℚ) + 1 / 2) :
    displayedFinalPrice skip = (x : ℤ) + 1 := by
  unfold displayedFinalPrice mathRound
  rw [h]
  have : (x : ℚ) + 1 / 2 + 1 / 2 = ((x : ℤ) + 1 : ℤ) := by push_cast; ring
  rw [this, Int.floor_intCast]

/-- Witness for C9 at `halfSkip`: the VAT-inclusive amount is `0.5`,
displayed as `1`. -/
theorem finalPrice_half_rounds_up_witness :
    displayedFinalPrice halfSkip = (0 : ℤ) + 1 :=
  finalPrice_half_rounds_up halfSkip 0
    (by norm_num [calculateFinalPrice, halfSkip, sampleSkip])

/-- C10: `calculateFinalPrice` depends only on `price_before_vat` and
`vat`. -/
theorem finalPrice_determined_by_price_and_vat (a b : Skip)
    (hp : a.price_before_vat = b.price_before_vat) (hv : a.vat = b.vat) :
    calculateFinalPrice a = calculateFinalPrice b := by
  unfold calculateFinalPrice
  rw [hp, hv]

/-- Witness for C10: `sampleSkip` and `sampleSkipVariant` differ in id,
size, hire period, forbidden flag and capability flags, yet price equally. -/
theorem finalPrice_determined_by_price_and_vat_witness :
    calculateFinalPrice sampleSkip = calculateFinalPrice sampleSkipVariant :=
  finalPrice_determined_by_price_and_vat sampleSkip sampleSkipVariant
    (by norm_num [sampleSkip, sampleSkipVariant]) rfl

/-- A parsed JSON response body.  Array responses deserialize elementwise
to `Skip` (§6 of the data contract); every other shape is a non-array. -/
inductive JsonValue where
  | jnull : JsonValue
  | jbool (b : Bool) : JsonValue
  | jnum (n : ℚ) : JsonValue
  | jstr (s : String) : JsonValue
  | jarr (elems : List Skip) : JsonValue
  | jobj (fields : List (String × JsonValue)) : JsonValue
  deriving Repr

/-- `Array.isArray(data)` on the parsed body. -/
def JsonValue.isArray : JsonValue → Bool
  | .jarr _ => true
  | _ => false

/-- `response.ok` of the Fetch standard: status in the range 200–299. -/
def responseOk (status : ℕ) : Bool :=
  200 ≤ status && status ≤ 299

/-- The component state quadruple of `App` (App.tsx lines 22–25). -/
structure AppState where
  skips : List Skip
  selectedSkip : Option Skip
  loading : Bool
  error : Option String
  deriving Repr

/-- The initial state: `[]`, `null`, `true`, `null` (App.tsx lines 22–25). -/
def initialState : AppState :=
  { skips := [], selectedSkip := none, loading := true, error := none }

/-- The synchronous start of `fetchSkips` (App.tsx lines 33–34):
`setLoading(true); setError(null)` before the first `await`. -/
def fetchStart (s : AppState) : AppState :=
  { s with loading := true, error := none }

/-- The possible outcomes of the awaited network call:
a settled HTTP response with a parsed body, an abort (the thrown error's
name is `AbortError`), any other thrown `Error` with its message, or a
thrown value that is not an `Error` at all. -/
inductive FetchEvent where
  | response (status : ℕ) (body : JsonValue) : FetchEvent
  | abortError : FetchEvent
  | errorThrown (msg : String) : FetchEvent
  | nonErrorThrown : FetchEvent
  deriving Repr

/-- The continuation of `fetchSkips` after the awaited call settles
(App.tsx lines 47–76), given the `mounted` flag at that moment:

* a non-ok status throws ``HTTP error! status: ${status}``, caught and
  wrapped into the error state when mounted;
* an ok status checks `Array.isArray` only when mounted, storing
  `data.slice(0, 6)` for arrays and throwing the fixed invalid-format
  message otherwise;
* an `AbortError` is only logged; any other `Error` is wrapped as
  ``Failed to load skips: ${message}``; a non-`Error` throw yields the
  fixed unexpected-error message — each gated on `mounted`;
* the `finally` block clears `loading` when mounted. -/
def fetchResolve (mounted : Bool) (ev : FetchEvent) (s : AppState) :
    AppState :=
  let s1 :=
    match ev with
    | .response status body =>
        if responseOk status then
          if mounted then
            match body with
            | .jarr elems => { s with skips := elems.take 6 }
            | _ =>
                { s with
                    error := some "Failed to load skips: Invalid data format received" }
          else s
        else
          if mounted then
            { s with
                error := some ("Failed to load skips: HTTP error! status: " ++ toString status) }
          else s
    | .abortError => s
    | .errorThrown msg =>
        if mounted then
          { s with error := some ("Failed to load skips: " ++ msg) }
        else s
    | .nonErrorThrown =>
        if mounted then
          { s with error := some "An unexpected error occurred" }
        else s
  if mounted then { s1 with loading := false } else s1

/-- What the component renders from the loader state: the error panel when
`error` is set (App.tsx line 255), the skeleton grid while `loading`
(line 327), otherwise one card per element of `skips` (lines 344–348). -/
inductive ViewMode where
  | errorPanel (msg : String) : ViewMode
  | skeleton : ViewMode
  | cards (items : List Skip) : ViewMode
  deriving Repr

/-- The render decision of `App` (App.tsx lines 255, 327, 345). -/
def renderView (s : AppState) : ViewMode :=
  match s.error with
  | some m => .errorPanel m
  | none => if s.loading then .skeleton else .cards s.skips

/-- C2: a successful array response of `N` elements renders exactly the
first `min N 6` elements, in received order; the excess is dropped without
entering the error state. -/
theorem success_renders_first_six (status : ℕ) (elems : List Skip)
    (s : AppState) (hok : responseOk status = true) :
    renderView (fetchResolve true (.response status (.jarr elems))
        (fetchStart s))
      = .cards (List.take 6 elems)
    ∧ (List.take 6 elems).length = min elems.length 6
    ∧ (∀ i : ℕ, i < min elems.length 6 →
        (List.take 6 elems)[i]? = elems[i]?) := by
  refine ⟨?_, ?_, ?_⟩
  · simp [renderView, fetchResolve, fetchStart, hok]
  · simp [List.length_take, Nat.min_comm]
  · intro i hi
    exact List.getElem?_take_of_lt (lt_of_lt_of_le hi (Nat.min_le_right _ _))

/-- Witness for C2: a 200 response carrying seven skips renders the first
six of them. -/
theorem success_renders_first_six_witness :
    renderView (fetchResolve true
        (.response 200 (.jarr (List.replicate 7 sampleSkip)))
        (fetchStart initialState))
      = .cards (List.take 6 (List.replicate 7 sampleSkip))
    ∧ (List.take 6 (List.replicate 7 sampleSkip)).length
        = min (List.replicate 7 sampleSkip).length 6
    ∧ (∀ i : ℕ, i < min (List.replicate 7 sampleSkip).length 6 →
        (List.take 6 (List.replicate 7 sampleSkip))[i]?
          = (List.replicate 7 sampleSkip)[i]?) :=
  success_renders_first_six 200 (List.replicate 7 sampleSkip) initialState
    (by decide)

/-- C3: after teardown (`mounted = false`, set by the effect cleanup at
App.tsx lines 81–84) no event mutates the state at all, and even while
mounted an abort is silent — it never sets the error (Failed) state and
never touches the skips. -/
theorem teardown_and_abort_are_silent :
    (∀ (ev : FetchEvent) (s : AppState), fetchResolve false ev s = s)
    ∧ (∀ s : AppState,
        (fetchResolve true .abortError s).error = s.error
        ∧ (fetchResolve true .abortError s).skips = s.skips) := by
  constructor
  · intro ev s
    cases ev with
    | response status body =>
        by_cases h : responseOk status = true <;>
          simp [fetchResolve, h]
    | abortError => simp [fetchResolve]
    | errorThrown msg => simp [fetchResolve]
    | nonErrorThrown => simp [fetchResolve]
  · intro s
    constructor <;> simp [fetchResolve]

/-- C4: an ok response whose parsed body is not an array enters the error
state with the fixed invalid-data-format message, whatever the payload. -/
theorem non_array_body_fixed_message (status : ℕ) (body : JsonValue)
    (s : AppState) (hok : responseOk status = true)
    (harr : body.isArray = false) :
    renderView (fetchResolve true (.response status body) (fetchStart s))
      = .errorPanel "Failed to load skips: Invalid data format received" := by
  cases body <;> simp_all [JsonValue.isArray, fetchResolve, fetchStart,
    renderView, hok]

/-- Witness for C4: a 200 response whose body is an object. -/
theorem non_array_body_fixed_message_witness :
    renderView (fetchResolve true
        (.response 200 (.jobj [("skips", .jnum 1)])) (fetchStart initialState))
      = .errorPanel "Failed to load skips: Invalid data format received" :=
  non_array_body_fixed_message 200 (.jobj [("skips", .jnum 1)]) initialState
    (by decide) (by decide)

/-- C5: a response with a non-2xx status enters the error state with a
message containing the numeric status code. -/
theorem non_ok_status_in_message (status : ℕ) (body : JsonValue)
    (s : AppState) (hok : responseOk status = false) :
    ∃ before after : String,
      renderView (fetchResolve true (.response status body) (fetchStart s))
        = .errorPanel (before ++ toString status ++ after) := by
  refine ⟨"Failed to load skips: HTTP error! status: ", "", ?_⟩
  simp [fetchResolve, fetchStart, renderView, hok]

/-- Witness for C5: a 404 response. -/
theorem non_ok_status_in_message_witness :
    ∃ before after : String,
      renderView (fetchResolve true (.response 404 .jnull)
          (fetchStart initialState))
        = .errorPanel (before ++ toString 404 ++ after) :=
  non_ok_status_in_message 404 .jnull initialState (by decide)

/-- The click targets that update the selection: the card container
(App.tsx line 169) and its embedded select button (lines 242–245); both
run `setSelectedSkip(skip)` (the button also stops propagation, so exactly
one update fires). -/
inductive ClickEvent where
  | cardClick (skip : Skip) : ClickEvent
  | selectButtonClick (skip : Skip) : ClickEvent

/-- The skip carried by a click. -/
def ClickEvent.skip : ClickEvent → Skip
  | .cardClick k => k
  | .selectButtonClick k => k

/-- The selection update performed by a click: `setSelectedSkip(skip)`. -/
def handleClick (ev : ClickEvent) (_sel : Option Skip) : Option Skip :=
  some ev.skip

/-- C6: every click (card or embedded button) selects exactly the clicked
item, replacing any previous selection; no click ever empties the
selection, and clicking A then B leaves exactly B selected. -/
theorem selection_transitions :
    (∀ (k : Skip) (sel : Option Skip),
        handleClick (.cardClick k) sel = some k)
    ∧ (∀ (k : Skip) (sel : Option Skip),
        handleClick (.selectButtonClick k) sel = some k)
    ∧ (∀ (ev : ClickEvent) (sel : Option Skip),
        (handleClick ev sel).isSome = true)
    ∧ (∀ (a b : ClickEvent) (sel : Option Skip),
        handleClick b (handleClick a sel) = some b.skip) := by
  refine ⟨?_, ?_, ?_, ?_⟩ <;> intros <;> rfl

/-- The bottom-bar summary (App.tsx lines 356–372): details of the
selected skip, or the placeholder prompt when nothing is selected. -/
inductive SummaryView where
  | selectedDetails (size hireDays : ℤ) (price : ℤ) : SummaryView
  | placeholder (prompt : String) : SummaryView
  deriving Repr

/-- The summary rendered from the selection (App.tsx lines 356–372). -/
def renderSummary : Option Skip → SummaryView
  | some k =>
      .selectedDetails k.size k.hire_period_days (displayedFinalPrice k)
  | none => .placeholder "Select a skip size to continue"

/-- The `disabled` attribute of the continue button
(App.tsx line 382): `!selectedSkip || loading`. -/
def continueDisabled (sel : Option Skip) (loading : Bool) : Bool :=
  !sel.isSome || loading

/-- C7: the continue action is enabled exactly when a selection exists and
loading is over, and an empty selection renders the placeholder prompt
while a selection renders its price and hire period. -/
theorem continue_enabled_iff_selected_and_loaded :
    (∀ (sel : Option Skip) (loading : Bool),
        continueDisabled sel loading = false
          ↔ (sel.isSome = true ∧ loading = false))
    ∧ renderSummary none = .placeholder "Select a skip size to continue"
    ∧ (∀ k : Skip, renderSummary (some k)
        = .selectedDetails k.size k.hire_period_days (displayedFinalPrice k))
    := by
  refine ⟨?_, rfl, fun k => rfl⟩
  intro sel loading
  cases sel <;> cases loading <;> simp [continueDisabled]

/-- Elementwise override of the `forbidden` flag, used to state that the
displayed batch never depends on it. -/
def setForbidden (b : Bool) (k : Skip) : Skip :=
  { k with forbidden := b }

/-- C8: a successful batch stores the first `min N 6` received elements
with no filtering on the `forbidden` flag: every stored element comes from
the received list, and marking every received element forbidden yields the
same positions, merely marked — none is dropped. -/
theorem no_forbidden_filtering (status : ℕ) (elems : List Skip)
    (s : AppState) (hok : responseOk status = true) :
    (fetchResolve true (.response status (.jarr elems)) (fetchStart s)).skips
      = List.take 6 elems
    ∧ (∀ k, k ∈ (fetchResolve true (.response status (.jarr elems))
          (fetchStart s)).skips → k ∈ elems)
    ∧ (fetchResolve true
          (.response status (.jarr (elems.map (setForbidden true))))
          (fetchStart s)).skips
        = ((fetchResolve true (.response status (.jarr elems))
            (fetchStart s)).skips).map (setForbidden true) := by
  refine ⟨?_, ?_, ?_⟩
  · simp [fetchResolve, fetchStart, hok]
  · intro k hk
    simp [fetchResolve, fetchStart, hok] at hk
    exact List.mem_of_mem_take hk
  · simp [fetchResolve, fetchStart, hok, List.map_take]

/-- Witness for C8: a 200 response carrying seven skips, every one of them
forbidden, still renders its first six elements. -/
theorem no_forbidden_filtering_witness :
    (fetchResolve true
        (.response 200 (.jarr (List.replicate 7 sampleSkipVariant)))
        (fetchStart initialState)).skips
      = List.take 6 (List.replicate 7 sampleSkipVariant)
    ∧ (∀ k, k ∈ (fetchResolve true
          (.response 200 (.jarr (List.replicate 7 sampleSkipVariant)))
          (fetchStart initialState)).skips
        → k ∈ List.replicate 7 sampleSkipVariant)
    ∧ (fetchResolve true
          (.response 200
            (.jarr ((List.replicate 7 sampleSkipVariant).map
              (setForbidden true))))
          (fetchStart initialState)).skips
        = ((fetchResolve true
            (.response 200 (.jarr (List.replicate 7 sampleSkipVariant)))
            (fetchStart initialState)).skips).map (setForbidden true) :=
  no_forbidden_filtering 200 (List.replicate 7 sampleSkipVariant)
    initialState (by decide)
